import Mathlib

/-!
Shallow embedding of `voxblox/simulation/objects.h`: the simulation shape
primitives `Object`, `Sphere`, `Cube` and `Plane` with their point-distance
and ray-intersection queries.  `FloatingPoint` values are modelled as real
numbers and Eigen `Point` vectors as triples of reals; `Point::norm()` is
the Euclidean norm via `Real.sqrt`.

The C++ ray-intersection methods use mutable out-parameters
(`Point* intersect_point`, `FloatingPoint* intersect_dist`) and return a
`bool`.  The embedding passes the current contents of those locations in and
returns the triple (returned bool, out point, out distance); each
`return false;` path of the source leaves the out-locations untouched, which
the embedding renders by returning the incoming values unchanged.
-/

namespace Voxblox

/-- Eigen `Point` (a 3-vector of `FloatingPoint`), modelled as a triple of
reals. -/
structure Point where
  x : ℝ
  y : ℝ
  z : ℝ

instance : Add Point := ⟨fun a b => ⟨a.x + b.x, a.y + b.y, a.z + b.z⟩⟩
instance : Sub Point := ⟨fun a b => ⟨a.x - b.x, a.y - b.y, a.z - b.z⟩⟩
instance : SMul ℝ Point := ⟨fun r a => ⟨r * a.x, r * a.y, r * a.z⟩⟩

theorem Point.add_def (a b : Point) :
    a + b = ⟨a.x + b.x, a.y + b.y, a.z + b.z⟩ := rfl

theorem Point.sub_def (a b : Point) :
    a - b = ⟨a.x - b.x, a.y - b.y, a.z - b.z⟩ := rfl

theorem Point.smul_def (r : ℝ) (a : Point) :
    r • a = ⟨r * a.x, r * a.y, r * a.z⟩ := rfl

/-- Eigen `v.dot(w)`. -/
def Point.dot (a b : Point) : ℝ := a.x * b.x + a.y * b.y + a.z * b.z

/-- Eigen `v.squaredNorm()`. -/
def Point.squaredNorm (a : Point) : ℝ := a.x * a.x + a.y * a.y + a.z * a.z

/-- Eigen `v.norm()`: the Euclidean norm. -/
noncomputable def Point.norm (a : Point) : ℝ := Real.sqrt a.squaredNorm

/-- Eigen `v.maxCoeff()`: the largest of the three components. -/
def Point.maxCoeff (a : Point) : ℝ := max a.x (max a.y a.z)

/-- `voxblox::Color` (RGBA bytes); pure data carried by every object. -/
structure Color where
  r : Nat
  g : Nat
  b : Nat
  a : Nat
deriving DecidableEq

/-- `Color::White()`. -/
def Color.White : Color := ⟨255, 255, 255, 255⟩

/-- `Object::Type`, the shape discriminant tag. -/
inductive ObjectType where
  | kSphere
  | kCube
  | kPlane
deriving DecidableEq

/-- The fields every `Object` carries: `center_`, `type_`, `color_`. -/
structure ObjectFields where
  center : Point
  type : ObjectType
  color : Color

/-- `Object::getDistanceToPoint`, the base-class default: returns `0.0`. -/
def objectGetDistanceToPoint (_o : ObjectFields) (_point : Point) : ℝ := 0.0

/-- `Object::getColor`: returns the stored `color_`. -/
def objectGetColor (o : ObjectFields) : Color := o.color

/-- `Object::getRayIntersection`, the base-class default: returns `false`
and writes neither out-parameter. -/
def objectGetRayIntersection (_o : ObjectFields) (_ray_origin : Point)
    (_ray_direction : Point) (_max_dist : ℝ) (intersect_point : Point)
    (intersect_dist : ℝ) : Bool × Point × ℝ :=
  (false, intersect_point, intersect_dist)

/-- `voxblox::Sphere`: `center_` and `color_` from `Object`, plus
`radius_`. -/
structure Sphere where
  center : Point
  radius : ℝ
  color : Color

/-- `Sphere::getDistanceToPoint`:
`(center_ - point).norm() - radius_`. -/
noncomputable def Sphere.getDistanceToPoint (s : Sphere) (point : Point) : ℝ :=
  (s.center - point).norm - s.radius

/-- `Sphere::getRayIntersection`: quadratic line-sphere intersection.
`under_square_root = (dir . (o - c))^2 - |o - c|^2 + r^2`; negative means no
intersection; otherwise `d = -(dir . (o - c)) - sqrt(under_square_root)` is
the smaller root, rejected when `d < 0` or `d > max_dist`, else the hit
`o + d * dir` at distance `d` is written to the out-parameters. -/
noncomputable def Sphere.getRayIntersection (s : Sphere) (ray_origin : Point)
    (ray_direction : Point) (max_dist : ℝ) (intersect_point : Point)
    (intersect_dist : ℝ) : Bool × Point × ℝ :=
  let under_square_root :=
    (ray_direction.dot (ray_origin - s.center)) ^ 2
      - (ray_origin - s.center).squaredNorm + s.radius ^ 2
  if under_square_root < 0 then
    (false, intersect_point, intersect_dist)
  else
    let d := -(ray_direction.dot (ray_origin - s.center))
      - Real.sqrt under_square_root
    if d < 0 then
      (false, intersect_point, intersect_dist)
    else if d > max_dist then
      (false, intersect_point, intersect_dist)
    else
      (true, ray_origin + d • ray_direction, d)

/-- `voxblox::Cube`: `center_` and `color_` from `Object`, plus `size_`
(the per-axis half-extents). -/
structure Cube where
  center : Point
  size : Point
  color : Color

/-- The `distance_vector` of `Cube::getDistanceToPoint` before the interior
branch: per axis the clamped slab distance
`max(max(center_i - size_i - point_i, 0), point_i - center_i - size_i)`. -/
def Cube.distanceVector (c : Cube) (point : Point) : Point :=
  ⟨max (max (c.center.x - c.size.x - point.x) 0)
      (point.x - c.center.x - c.size.x),
    max (max (c.center.y - c.size.y - point.y) 0)
      (point.y - c.center.y - c.size.y),
    max (max (c.center.z - c.size.z - point.z) 0)
      (point.z - c.center.z - c.size.z)⟩

/-- The interior fallback of `Cube::getDistanceToPoint`: the
`distance_vector` re-assignment without the clamp to `0`, combined with
`maxCoeff()`. -/
def Cube.insideFallback (c : Cube) (point : Point) : ℝ :=
  (Point.mk
    (max (c.center.x - c.size.x - point.x) (point.x - c.center.x - c.size.x))
    (max (c.center.y - c.size.y - point.y) (point.y - c.center.y - c.size.y))
    (max (c.center.z - c.size.z - point.z)
      (point.z - c.center.z - c.size.z))).maxCoeff

/-- `Cube::getDistanceToPoint`: the Euclidean norm of the clamped per-axis
slab distances; when that norm is below `1e-6` the point is treated as
interior ("Basically 0... Means it's inside!") and the unclamped per-axis
maxima are combined by `maxCoeff` instead. -/
noncomputable def Cube.getDistanceToPoint (c : Cube) (point : Point) : ℝ :=
  let distance := (c.distanceVector point).norm
  if distance < 1e-6 then c.insideFallback point
  else distance

/-- `Cube` declares no `getRayIntersection` override, so a ray query on a
cube runs the inherited `Object::getRayIntersection` default: it returns
`false` and writes neither out-parameter. -/
def Cube.getRayIntersection (_c : Cube) (_ray_origin : Point)
    (_ray_direction : Point) (_max_dist : ℝ) (intersect_point : Point)
    (intersect_dist : ℝ) : Bool × Point × ℝ :=
  (false, intersect_point, intersect_dist)

/-- `voxblox::Plane`: `center_` and `color_` from `Object`, plus
`normal_`. -/
structure Plane where
  center : Point
  normal : Point
  color : Color

/-- `Plane::getDistanceToPoint`: computes `d = -normal_.dot(center_)`,
`p = d / normal_.norm()`, and returns `normal_.dot(point) + p`. -/
noncomputable def Plane.getDistanceToPoint (pl : Plane) (point : Point) : ℝ :=
  let d := -(pl.normal.dot pl.center)
  let p := d / pl.normal.norm
  pl.normal.dot point + p

/-- `Plane::getRayIntersection`: `denominator = dir . normal`; when
`|denominator| < 1e-6` the ray is parallel and there is no intersection;
otherwise `d = ((center - origin) . normal) / denominator`, rejected when
`d < 0` or `d > max_dist`, else the hit `origin + d * dir` at distance `d`
is written to the out-parameters.  (The `std::cout` debug line in the source
prints `d` and affects neither the return value nor any field.) -/
noncomputable def Plane.getRayIntersection (pl : Plane) (ray_origin : Point)
    (ray_direction : Point) (max_dist : ℝ) (intersect_point : Point)
    (intersect_dist : ℝ) : Bool × Point × ℝ :=
  let denominator := ray_direction.dot pl.normal
  if |denominator| < 1e-6 then
    (false, intersect_point, intersect_dist)
  else
    let d := (pl.center - ray_origin).dot pl.normal / denominator
    if d < 0 then
      (false, intersect_point, intersect_dist)
    else if d > max_dist then
      (false, intersect_point, intersect_dist)
    else
      (true, ray_origin + d • ray_direction, d)

/-- `Sphere::getColor` (inherited from `Object`). -/
def Sphere.getColor (s : Sphere) : Color := s.color

/-- `Cube::getColor` (inherited from `Object`). -/
def Cube.getColor (c : Cube) : Color := c.color

/-- `Plane::getColor` (inherited from `Object`). -/
def Plane.getColor (pl : Plane) : Color := pl.color

/-!
State-passing renderings of the query methods.  Every query method of the
source is declared `const` and assigns to no member field, so its effect on
the receiver object is the identity; the `...M` forms make that explicit by
returning the receiver state alongside the query result.
-/

noncomputable def Sphere.getDistanceToPointM (s : Sphere) (point : Point) :
    ℝ × Sphere :=
  (s.getDistanceToPoint point, s)

noncomputable def Sphere.getRayIntersectionM (s : Sphere)
    (ray_origin ray_direction : Point) (max_dist : ℝ)
    (intersect_point : Point) (intersect_dist : ℝ) :
    (Bool × Point × ℝ) × Sphere :=
  (s.getRayIntersection ray_origin ray_direction max_dist intersect_point
    intersect_dist, s)

def Sphere.getColorM (s : Sphere) : Color × Sphere := (s.getColor, s)

noncomputable def Cube.getDistanceToPointM (c : Cube) (point : Point) :
    ℝ × Cube :=
  (c.getDistanceToPoint point, c)

def Cube.getRayIntersectionM (c : Cube) (ray_origin ray_direction : Point)
    (max_dist : ℝ) (intersect_point : Point) (intersect_dist : ℝ) :
    (Bool × Point × ℝ) × Cube :=
  (c.getRayIntersection ray_origin ray_direction max_dist intersect_point
    intersect_dist, c)

def Cube.getColorM (c : Cube) : Color × Cube := (c.getColor, c)

noncomputable def Plane.getDistanceToPointM (pl : Plane) (point : Point) :
    ℝ × Plane :=
  (pl.getDistanceToPoint point, pl)

noncomputable def Plane.getRayIntersectionM (pl : Plane)
    (ray_origin ray_direction : Point) (max_dist : ℝ)
    (intersect_point : Point) (intersect_dist : ℝ) :
    (Bool × Point × ℝ) × Plane :=
  (pl.getRayIntersection ray_origin ray_direction max_dist intersect_point
    intersect_dist, pl)

def Plane.getColorM (pl : Plane) : Color × Plane := (pl.getColor, pl)

/-! Helper lemmas about `Point` norms. -/

theorem sqrt_four : Real.sqrt 4 = 2 := by
  rw [show (4 : ℝ) = 2 ^ 2 by norm_num,
    Real.sqrt_sq (by norm_num : (0 : ℝ) ≤ 2)]

theorem Point.norm_eq (a : Point) (v : ℝ) (h0 : 0 ≤ v)
    (h : a.x * a.x + a.y * a.y + a.z * a.z = v * v) : a.norm = v := by
  unfold Point.norm Point.squaredNorm
  rw [h, Real.sqrt_mul_self h0]

theorem Point.norm_sub_comm (a b : Point) : (a - b).norm = (b - a).norm := by
  unfold Point.norm Point.squaredNorm
  simp only [Point.sub_def]
  congr 1
  ring

theorem Point.norm_sub_self (a : Point) : (a - a).norm = 0 := by
  unfold Point.norm Point.squaredNorm
  simp [Point.sub_def]

theorem Point.norm_nonneg (a : Point) : 0 ≤ a.norm := Real.sqrt_nonneg _

/-- C4: the sphere distance query returns the Euclidean distance from the
query point to the center minus the radius; at the center it returns
`-radius`; it is negative strictly inside the sphere, zero on the surface,
and positive outside. -/
theorem sphere_distance_signed (c : Point) (r : ℝ) (col : Color) (p : Point) :
    Sphere.getDistanceToPoint ⟨c, r, col⟩ p = (p - c).norm - r
    ∧ Sphere.getDistanceToPoint ⟨c, r, col⟩ c = -r
    ∧ ((p - c).norm < r → Sphere.getDistanceToPoint ⟨c, r, col⟩ p < 0)
    ∧ ((p - c).norm = r → Sphere.getDistanceToPoint ⟨c, r, col⟩ p = 0)
    ∧ (r < (p - c).norm → 0 < Sphere.getDistanceToPoint ⟨c, r, col⟩ p) := by
  unfold Sphere.getDistanceToPoint
  dsimp only
  rw [Point.norm_sub_comm c p]
  refine ⟨rfl, ?_, fun h => by linarith, fun h => by linarith,
    fun h => by linarith⟩
  rw [Point.norm_sub_comm c c, Point.norm_sub_self]
  ring

/-- C4 witness: for the unit sphere at the origin, the distance at the
center is `-1` and the distance at the outside point `(3,0,0)` is
positive. -/
theorem sphere_distance_signed_witness :
    Sphere.getDistanceToPoint ⟨⟨0, 0, 0⟩, 1, Color.White⟩ ⟨0, 0, 0⟩ = -1
    ∧ 0 < Sphere.getDistanceToPoint ⟨⟨0, 0, 0⟩, 1, Color.White⟩ ⟨3, 0, 0⟩ :=
  ⟨(sphere_distance_signed ⟨0, 0, 0⟩ 1 Color.White ⟨0, 0, 0⟩).2.1,
    (sphere_distance_signed ⟨0, 0, 0⟩ 1 Color.White ⟨3, 0, 0⟩).2.2.2.2
      (by rw [Point.sub_def]
          norm_num
          rw [Point.norm_eq _ 3 (by norm_num) (by norm_num)]
          norm_num)⟩

/-- C1 counterexample: the cube ray query on a ray that passes straight
through the unit cube returns exactly the same outcome (`false`, untouched
out-parameters) as a genuine sphere miss, so the outcome is not observably
distinct from a real "no intersection". -/
theorem cube_ray_same_as_miss :
    Cube.getRayIntersection ⟨⟨0, 0, 0⟩, ⟨1, 1, 1⟩, Color.White⟩
        ⟨-5, 0, 0⟩ ⟨1, 0, 0⟩ 100 ⟨0, 0, 0⟩ 0
      = Sphere.getRayIntersection ⟨⟨0, 0, 0⟩, 1, Color.White⟩
        ⟨0, 5, 0⟩ ⟨0, 1, 0⟩ 100 ⟨0, 0, 0⟩ 0
    ∧ (Cube.getRayIntersection ⟨⟨0, 0, 0⟩, ⟨1, 1, 1⟩, Color.White⟩
        ⟨-5, 0, 0⟩ ⟨1, 0, 0⟩ 100 ⟨0, 0, 0⟩ 0).1 = false := by
  constructor
  · unfold Cube.getRayIntersection Sphere.getRayIntersection
    dsimp only
    rw [Point.sub_def]
    unfold Point.dot Point.squaredNorm
    norm_num [Real.sqrt_one]
  · rfl

/-- C1 amended: the cube does not override the ray query; the inherited
base default returns `false` with both out-parameters untouched for every
input, which is the same outcome as a genuine miss. -/
theorem cube_ray_always_default (c : Cube) (ray_origin ray_direction : Point)
    (max_dist : ℝ) (intersect_point : Point) (intersect_dist : ℝ) :
    Cube.getRayIntersection c ray_origin ray_direction max_dist
        intersect_point intersect_dist
      = (false, intersect_point, intersect_dist) := rfl

/-- C3 counterexample: for the plane through the origin with the non-unit
normal `(2,0,0)` and the query point `(1,0,0)`, the code returns
`normal . point + d / |normal|  = 2`, not the claimed
`(normal . point + d) / |normal| = 1`. -/
theorem plane_distance_not_renormalized :
    Plane.getDistanceToPoint ⟨⟨0, 0, 0⟩, ⟨2, 0, 0⟩, Color.White⟩ ⟨1, 0, 0⟩
      ≠ ((Point.mk 2 0 0).dot ⟨1, 0, 0⟩
          + -((Point.mk 2 0 0).dot ⟨0, 0, 0⟩)) / (Point.mk 2 0 0).norm := by
  unfold Plane.getDistanceToPoint
  dsimp only
  rw [Point.norm_eq ⟨2, 0, 0⟩ 2 (by norm_num) (by norm_num)]
  unfold Point.dot
  norm_num

/-- C3 amended: the plane distance query divides only the implicit-form
offset `d = -(normal . center)` by the normal's norm and returns
`normal . point + d / |normal|`; when the normal has unit length this
coincides with the fully re-normalized expression
`(normal . point + d) / |normal|`. -/
theorem plane_distance_formula (n c : Point) (col : Color) (p : Point) :
    Plane.getDistanceToPoint ⟨c, n, col⟩ p = n.dot p + -(n.dot c) / n.norm
    ∧ (n.norm = 1 → Plane.getDistanceToPoint ⟨c, n, col⟩ p
        = (n.dot p + -(n.dot c)) / n.norm) := by
  unfold Plane.getDistanceToPoint
  dsimp only
  refine ⟨rfl, fun h => ?_⟩
  rw [h]
  ring

/-- C3 amended witness: for the unit normal `(0,0,1)` the two forms agree
on a concrete plane and query point. -/
theorem plane_distance_formula_witness :
    Plane.getDistanceToPoint ⟨⟨0, 0, 0⟩, ⟨0, 0, 1⟩, Color.White⟩ ⟨0, 0, 7⟩
      = ((Point.mk 0 0 1).dot ⟨0, 0, 7⟩
          + -((Point.mk 0 0 1).dot ⟨0, 0, 0⟩)) / (Point.mk 0 0 1).norm :=
  (plane_distance_formula ⟨0, 0, 1⟩ ⟨0, 0, 0⟩ Color.White ⟨0, 0, 7⟩).2
    (Point.norm_eq _ 1 (by norm_num) (by norm_num))

/-- Both overriding ray queries share the shape "reject, reject `d < 0`,
reject `d > max_dist`, else hit at distance `d`"; this lemma packages the
range facts for that shape. -/
theorem ite_chain_range (C : Prop) [Decidable C] (d m : ℝ) (p0 hitp : Point)
    (d0 : ℝ) :
    ((if C then (false, p0, d0)
        else if d < 0 then (false, p0, d0)
        else if d > m then (false, p0, d0)
        else ((true : Bool), hitp, d)).1 = true →
      0 ≤ (if C then (false, p0, d0)
        else if d < 0 then (false, p0, d0)
        else if d > m then (false, p0, d0)
        else ((true : Bool), hitp, d)).2.2
      ∧ (if C then (false, p0, d0)
        else if d < 0 then (false, p0, d0)
        else if d > m then (false, p0, d0)
        else ((true : Bool), hitp, d)).2.2 ≤ m)
    ∧ (m < 0 →
      (if C then (false, p0, d0)
        else if d < 0 then (false, p0, d0)
        else if d > m then (false, p0, d0)
        else ((true : Bool), hitp, d)).1 = false) := by
  split_ifs with h1 h2 h3
  · exact ⟨fun h => by simp at h, fun _ => rfl⟩
  · exact ⟨fun h => by simp at h, fun _ => rfl⟩
  · exact ⟨fun h => by simp at h, fun _ => rfl⟩
  · refine ⟨fun _ => ⟨by linarith [not_lt.mp h2], by linarith [not_lt.mp h3]⟩,
      fun hm => ?_⟩
    exfalso
    have := not_lt.mp h2
    have := not_lt.mp h3
    linarith

/-- C5: the sphere ray query returns no result when the discriminant
`b^2 - c` (with `b = dir . (o - center)`, `c = |o - center|^2 - r^2`) is
negative; otherwise it takes the smaller root `d = -b - sqrt(b^2 - c)`,
rejects `d < 0` or `d > maxDistance`, and otherwise reports the hit
`o + d * dir` at distance `d`.  Concretely, the ray from `(-5,0,0)` in
direction `(1,0,0)` hits the unit sphere at the origin at `(-1,0,0)`,
distance `4`, strictly less than the far-root distance `-b + sqrt(b^2-c)`
of the same ray. -/
theorem sphere_ray_near_root (ct : Point) (r : ℝ) (col : Color)
    (o dir : Point) (m : ℝ) (p0 : Point) (d0 : ℝ) (b cc d : ℝ)
    (hdir : dir.norm = 1) (hb : b = dir.dot (o - ct))
    (hcc : cc = (o - ct).squaredNorm - r ^ 2)
    (hd : d = -b - Real.sqrt (b ^ 2 - cc)) :
    (b ^ 2 - cc < 0 →
        (Sphere.getRayIntersection ⟨ct, r, col⟩ o dir m p0 d0).1 = false)
    ∧ (0 ≤ b ^ 2 - cc →
        ((d < 0 ∨ m < d) →
          (Sphere.getRayIntersection ⟨ct, r, col⟩ o dir m p0 d0).1 = false)
        ∧ (0 ≤ d → d ≤ m →
            Sphere.getRayIntersection ⟨ct, r, col⟩ o dir m p0 d0
              = (true, o + d • dir, d)))
    ∧ Sphere.getRayIntersection ⟨⟨0, 0, 0⟩, 1, Color.White⟩ ⟨-5, 0, 0⟩
        ⟨1, 0, 0⟩ 10 ⟨0, 0, 0⟩ 0 = (true, ⟨-1, 0, 0⟩, 4)
    ∧ (4 : ℝ)
        < -((Point.mk 1 0 0).dot (Point.mk (-5) 0 0 - Point.mk 0 0 0))
          + Real.sqrt
            ((Point.mk 1 0 0).dot (Point.mk (-5) 0 0 - Point.mk 0 0 0) ^ 2
              - ((Point.mk (-5) 0 0 - Point.mk 0 0 0).squaredNorm - 1 ^ 2)) := by
  subst hd
  subst hcc
  subst hb
  have key : (dir.dot (o - ct)) ^ 2 - (o - ct).squaredNorm + r ^ 2
      = dir.dot (o - ct) ^ 2 - ((o - ct).squaredNorm - r ^ 2) := by ring
  refine ⟨?_, fun hge => ⟨?_, ?_⟩, ?_, ?_⟩
  · intro hlt
    unfold Sphere.getRayIntersection
    dsimp only
    rw [key, if_pos hlt]
  · rintro (h1 | h2)
    · unfold Sphere.getRayIntersection
      dsimp only
      rw [key, if_neg (not_lt.mpr hge), if_pos h1]
    · unfold Sphere.getRayIntersection
      dsimp only
      rw [key, if_neg (not_lt.mpr hge)]
      by_cases h1 : -(dir.dot (o - ct))
          - Real.sqrt (dir.dot (o - ct) ^ 2
            - ((o - ct).squaredNorm - r ^ 2)) < 0
      · rw [if_pos h1]
      · rw [if_neg h1, if_pos h2]
  · intro hd0 hdm
    unfold Sphere.getRayIntersection
    dsimp only
    rw [key, if_neg (not_lt.mpr hge), if_neg (not_lt.mpr hd0),
      if_neg (not_lt.mpr hdm)]
  · norm_num [Sphere.getRayIntersection, Point.dot, Point.sub_def,
      Point.squaredNorm, Point.add_def, Point.smul_def, Real.sqrt_one]
  · norm_num [Point.dot, Point.sub_def, Point.squaredNorm, Real.sqrt_one]

/-- C5 witness: the concrete near-root hit, obtained from
`sphere_ray_near_root` at `b = -5`, `c = 24`, `d = 4`. -/
theorem sphere_ray_near_root_witness :
    Sphere.getRayIntersection ⟨⟨0, 0, 0⟩, 1, Color.White⟩ ⟨-5, 0, 0⟩
      ⟨1, 0, 0⟩ 10 ⟨0, 0, 0⟩ 0 = (true, ⟨-1, 0, 0⟩, 4) :=
  (sphere_ray_near_root ⟨0, 0, 0⟩ 1 Color.White ⟨-5, 0, 0⟩ ⟨1, 0, 0⟩ 10
    ⟨0, 0, 0⟩ 0 (-5) 24 4
    (Point.norm_eq _ 1 (by norm_num) (by norm_num))
    (by norm_num [Point.dot, Point.sub_def])
    (by norm_num [Point.squaredNorm, Point.sub_def])
    (by norm_num [Real.sqrt_one])).2.2.1

/-- C6: the plane ray query returns no result when
`|dir . normal| < 1e-6` (for every origin, on the plane or not); otherwise
with `d = ((center - o) . normal) / (dir . normal)` it rejects `d < 0` or
`d > maxDistance` and otherwise reports the hit `o + d * dir` at distance
`d`.  Concretely, the ray from `(0,0,5)` in direction `(0,0,-1)` with
maxDistance `10` hits the plane through the origin with normal `(0,0,1)` at
`(0,0,0)`, distance `5`. -/
theorem plane_ray_spec (ct n : Point) (col : Color) (o dir : Point) (m : ℝ)
    (p0 : Point) (d0 : ℝ) (d : ℝ)
    (hdd : d = (ct - o).dot n / dir.dot n) :
    (|dir.dot n| < 1e-6 →
        (Plane.getRayIntersection ⟨ct, n, col⟩ o dir m p0 d0).1 = false)
    ∧ (1e-6 ≤ |dir.dot n| →
        ((d < 0 ∨ m < d) →
          (Plane.getRayIntersection ⟨ct, n, col⟩ o dir m p0 d0).1 = false)
        ∧ (0 ≤ d → d ≤ m →
            Plane.getRayIntersection ⟨ct, n, col⟩ o dir m p0 d0
              = (true, o + d • dir, d)))
    ∧ Plane.getRayIntersection ⟨⟨0, 0, 0⟩, ⟨0, 0, 1⟩, Color.White⟩ ⟨0, 0, 5⟩
        ⟨0, 0, -1⟩ 10 ⟨0, 0, 0⟩ 0 = (true, ⟨0, 0, 0⟩, 5) := by
  subst hdd
  refine ⟨?_, fun hge => ⟨?_, ?_⟩, ?_⟩
  · intro hlt
    unfold Plane.getRayIntersection
    dsimp only
    rw [if_pos hlt]
  · rintro (h1 | h2)
    · unfold Plane.getRayIntersection
      dsimp only
      rw [if_neg (not_lt.mpr hge), if_pos h1]
    · unfold Plane.getRayIntersection
      dsimp only
      rw [if_neg (not_lt.mpr hge)]
      by_cases h1 : (ct - o).dot n / dir.dot n < 0
      · rw [if_pos h1]
      · rw [if_neg h1, if_pos h2]
  · intro hd0 hdm
    unfold Plane.getRayIntersection
    dsimp only
    rw [if_neg (not_lt.mpr hge), if_neg (not_lt.mpr hd0),
      if_neg (not_lt.mpr hdm)]
  · norm_num [Plane.getRayIntersection, Point.dot, Point.sub_def,
      Point.add_def, Point.smul_def]

/-- C6 witness: a ray parallel to the plane (direction `(1,0,0)`, normal
`(0,0,1)`) reports no intersection, by `plane_ray_spec`. -/
theorem plane_ray_spec_witness :
    (Plane.getRayIntersection ⟨⟨0, 0, 0⟩, ⟨0, 0, 1⟩, Color.White⟩ ⟨0, 0, 5⟩
      ⟨1, 0, 0⟩ 10 ⟨0, 0, 0⟩ 0).1 = false :=
  (plane_ray_spec ⟨0, 0, 0⟩ ⟨0, 0, 1⟩ Color.White ⟨0, 0, 5⟩ ⟨1, 0, 0⟩ 10
    ⟨0, 0, 0⟩ 0 _ rfl).1 (by norm_num [Point.dot])

/-- C2 counterexample: with `maxDistance = 0`, the ray starting on the unit
sphere's surface at `(1,0,0)` and heading inward is reported as a hit (at
distance `0`), so `intersectRay` does not return "no result" for every
`maxDistance <= 0`, and a hit distance outside `(0, maxDistance]` is
reported. -/
theorem ray_hit_at_zero_max :
    (Sphere.getRayIntersection ⟨⟨0, 0, 0⟩, 1, Color.White⟩ ⟨1, 0, 0⟩
      ⟨-1, 0, 0⟩ 0 ⟨0, 0, 0⟩ 0).1 = true := by
  norm_num [Sphere.getRayIntersection, Point.dot, Point.sub_def,
    Point.squaredNorm, Real.sqrt_one]

/-- C2 amended: for every shape variant, a hit is reported only for an
intersection distance in the closed interval `[0, maxDistance]`, and no
result is returned whenever `maxDistance < 0` (at `maxDistance = 0` a hit
at distance exactly `0` is still possible). -/
theorem ray_hit_distance_range (ct : Point) (r : ℝ) (sz n : Point)
    (col : Color) (o dir : Point) (m : ℝ) (p0 : Point) (d0 : ℝ) :
    ((Sphere.getRayIntersection ⟨ct, r, col⟩ o dir m p0 d0).1 = true →
        0 ≤ (Sphere.getRayIntersection ⟨ct, r, col⟩ o dir m p0 d0).2.2
        ∧ (Sphere.getRayIntersection ⟨ct, r, col⟩ o dir m p0 d0).2.2 ≤ m)
    ∧ (m < 0 →
        (Sphere.getRayIntersection ⟨ct, r, col⟩ o dir m p0 d0).1 = false)
    ∧ ((Plane.getRayIntersection ⟨ct, n, col⟩ o dir m p0 d0).1 = true →
        0 ≤ (Plane.getRayIntersection ⟨ct, n, col⟩ o dir m p0 d0).2.2
        ∧ (Plane.getRayIntersection ⟨ct, n, col⟩ o dir m p0 d0).2.2 ≤ m)
    ∧ (m < 0 →
        (Plane.getRayIntersection ⟨ct, n, col⟩ o dir m p0 d0).1 = false)
    ∧ (Cube.getRayIntersection ⟨ct, sz, col⟩ o dir m p0 d0).1 = false := by
  have hs := ite_chain_range
    ((dir.dot (o - ct)) ^ 2 - (o - ct).squaredNorm + r ^ 2 < 0)
    (-(dir.dot (o - ct))
      - Real.sqrt ((dir.dot (o - ct)) ^ 2 - (o - ct).squaredNorm + r ^ 2))
    m p0
    (o + (-(dir.dot (o - ct))
      - Real.sqrt ((dir.dot (o - ct)) ^ 2
        - (o - ct).squaredNorm + r ^ 2)) • dir) d0
  have hp := ite_chain_range (|dir.dot n| < 1e-6)
    ((ct - o).dot n / dir.dot n) m p0
    (o + ((ct - o).dot n / dir.dot n) • dir) d0
  exact ⟨hs.1, hs.2, hp.1, hp.2, rfl⟩

/-- C2 amended witness: with `maxDistance = -1` the sphere ray query
returns no result, by `ray_hit_distance_range`. -/
theorem ray_hit_distance_range_witness :
    (Sphere.getRayIntersection ⟨⟨0, 0, 0⟩, 1, Color.White⟩ ⟨1, 0, 0⟩
      ⟨-1, 0, 0⟩ (-1) ⟨0, 0, 0⟩ 0).1 = false :=
  (ray_hit_distance_range ⟨0, 0, 0⟩ 1 ⟨1, 1, 1⟩ ⟨0, 0, 1⟩ Color.White
    ⟨1, 0, 0⟩ ⟨-1, 0, 0⟩ (-1) ⟨0, 0, 0⟩ 0).2.1 (by norm_num)

/-- C7: the cube distance query returns the Euclidean norm of the clamped
per-axis slab distances; when that norm is below `1e-6` it returns the
interior fallback, the largest of the unclamped per-axis maxima
`max(center_i - halfExtent_i - point_i, point_i - center_i - halfExtent_i)`,
which is non-positive exactly at or inside the box surface and positive
strictly outside it.  Concretely, for the cube centered at the origin with
half-extents `(1,1,1)`, the distance at `(3,0,0)` is `2` and the distance
at the interior point `(0,0,0)` is `-1`. -/
theorem cube_distance_spec (ct sz : Point) (col : Color) (p : Point) :
    (((Cube.mk ct sz col).distanceVector p).norm < 1e-6 →
        Cube.getDistanceToPoint ⟨ct, sz, col⟩ p
          = (Cube.mk ct sz col).insideFallback p)
    ∧ (1e-6 ≤ ((Cube.mk ct sz col).distanceVector p).norm →
        Cube.getDistanceToPoint ⟨ct, sz, col⟩ p
          = ((Cube.mk ct sz col).distanceVector p).norm)
    ∧ ((|p.x - ct.x| ≤ sz.x ∧ |p.y - ct.y| ≤ sz.y ∧ |p.z - ct.z| ≤ sz.z) →
        (Cube.mk ct sz col).insideFallback p ≤ 0)
    ∧ (¬(|p.x - ct.x| ≤ sz.x ∧ |p.y - ct.y| ≤ sz.y ∧ |p.z - ct.z| ≤ sz.z) →
        0 < (Cube.mk ct sz col).insideFallback p)
    ∧ Cube.getDistanceToPoint ⟨⟨0, 0, 0⟩, ⟨1, 1, 1⟩, Color.White⟩ ⟨3, 0, 0⟩
        = 2
    ∧ Cube.getDistanceToPoint ⟨⟨0, 0, 0⟩, ⟨1, 1, 1⟩, Color.White⟩ ⟨0, 0, 0⟩
        = -1 := by
  refine ⟨?_, ?_, ?_, ?_, ?_, ?_⟩
  · intro hlt
    unfold Cube.getDistanceToPoint
    dsimp only
    rw [if_pos hlt]
  · intro hge
    unfold Cube.getDistanceToPoint
    dsimp only
    rw [if_neg (not_lt.mpr hge)]
  · rintro ⟨hx, hy, hz⟩
    rw [abs_le] at hx hy hz
    unfold Cube.insideFallback Point.maxCoeff
    dsimp only
    simp only [max_le_iff]
    exact ⟨⟨by linarith [hx.1, hx.2], by linarith [hx.1, hx.2]⟩,
      ⟨by linarith [hy.1, hy.2], by linarith [hy.1, hy.2]⟩,
      ⟨by linarith [hz.1, hz.2], by linarith [hz.1, hz.2]⟩⟩
  · intro h
    rw [not_and_or, not_and_or] at h
    unfold Cube.insideFallback Point.maxCoeff
    dsimp only
    rcases h with hx | hy | hz
    · rw [not_le] at hx
      rcases lt_abs.mp hx with h1 | h1
      · exact lt_max_iff.mpr (Or.inl (lt_max_iff.mpr (Or.inr (by linarith))))
      · exact lt_max_iff.mpr (Or.inl (lt_max_iff.mpr (Or.inl (by linarith))))
    · rw [not_le] at hy
      rcases lt_abs.mp hy with h1 | h1
      · exact lt_max_iff.mpr (Or.inr (lt_max_iff.mpr (Or.inl
          (lt_max_iff.mpr (Or.inr (by linarith))))))
      · exact lt_max_iff.mpr (Or.inr (lt_max_iff.mpr (Or.inl
          (lt_max_iff.mpr (Or.inl (by linarith))))))
    · rw [not_le] at hz
      rcases lt_abs.mp hz with h1 | h1
      · exact lt_max_iff.mpr (Or.inr (lt_max_iff.mpr (Or.inr
          (lt_max_iff.mpr (Or.inr (by linarith))))))
      · exact lt_max_iff.mpr (Or.inr (lt_max_iff.mpr (Or.inr
          (lt_max_iff.mpr (Or.inl (by linarith))))))
  · norm_num [Cube.getDistanceToPoint, Cube.distanceVector,
      Cube.insideFallback, Point.maxCoeff, Point.norm, Point.squaredNorm,
      sqrt_four]
  · norm_num [Cube.getDistanceToPoint, Cube.distanceVector,
      Cube.insideFallback, Point.maxCoeff, Point.norm, Point.squaredNorm,
      Real.sqrt_zero]

/-- C7 witness: at the interior point `(0,0,0)` of the unit cube the
fallback value is non-positive, by `cube_distance_spec`. -/
theorem cube_distance_spec_witness :
    (Cube.mk ⟨0, 0, 0⟩ ⟨1, 1, 1⟩ Color.White).insideFallback ⟨0, 0, 0⟩ ≤ 0 :=
  (cube_distance_spec ⟨0, 0, 0⟩ ⟨1, 1, 1⟩ Color.White ⟨0, 0, 0⟩).2.2.1
    (by norm_num)

/-- C8: every query on every shape variant is a pure function of its inputs
and the shape's construction-time fields: the state-passing renderings
return the shape unchanged, and re-invoking the same query on the returned
shape with identical inputs yields an identical result. -/
theorem queries_pure (s : Sphere) (c : Cube) (pl : Plane) (p o dir : Point)
    (m : ℝ) (p0 : Point) (d0 : ℝ) :
    ((s.getDistanceToPointM p).2 = s
      ∧ (s.getDistanceToPointM p).2.getDistanceToPointM p
          = s.getDistanceToPointM p)
    ∧ ((s.getRayIntersectionM o dir m p0 d0).2 = s
      ∧ (s.getRayIntersectionM o dir m p0 d0).2.getRayIntersectionM
          o dir m p0 d0 = s.getRayIntersectionM o dir m p0 d0)
    ∧ (s.getColorM.2 = s ∧ s.getColorM.2.getColorM = s.getColorM)
    ∧ ((c.getDistanceToPointM p).2 = c
      ∧ (c.getDistanceToPointM p).2.getDistanceToPointM p
          = c.getDistanceToPointM p)
    ∧ ((c.getRayIntersectionM o dir m p0 d0).2 = c
      ∧ (c.getRayIntersectionM o dir m p0 d0).2.getRayIntersectionM
          o dir m p0 d0 = c.getRayIntersectionM o dir m p0 d0)
    ∧ (c.getColorM.2 = c ∧ c.getColorM.2.getColorM = c.getColorM)
    ∧ ((pl.getDistanceToPointM p).2 = pl
      ∧ (pl.getDistanceToPointM p).2.getDistanceToPointM p
          = pl.getDistanceToPointM p)
    ∧ ((pl.getRayIntersectionM o dir m p0 d0).2 = pl
      ∧ (pl.getRayIntersectionM o dir m p0 d0).2.getRayIntersectionM
          o dir m p0 d0 = pl.getRayIntersectionM o dir m p0 d0)
    ∧ (pl.getColorM.2 = pl ∧ pl.getColorM.2.getColorM = pl.getColorM) :=
  ⟨⟨rfl, rfl⟩, ⟨rfl, rfl⟩, ⟨rfl, rfl⟩, ⟨rfl, rfl⟩, ⟨rfl, rfl⟩, ⟨rfl, rfl⟩,
    ⟨rfl, rfl⟩, ⟨rfl, rfl⟩, ⟨rfl, rfl⟩⟩

/-- The miss paths of the ray queries of the shape "reject, reject `d < 0`,
reject `d > max_dist`, else hit" leave the out-parameters untouched. -/
theorem ite_chain_frame (C : Prop) [Decidable C] (d m : ℝ) (p0 hitp : Point)
    (d0 : ℝ) :
    (if C then ((false : Bool), p0, d0)
        else if d < 0 then (false, p0, d0)
        else if d > m then (false, p0, d0)
        else (true, hitp, d)).1 = false →
      (if C then ((false : Bool), p0, d0)
        else if d < 0 then (false, p0, d0)
        else if d > m then (false, p0, d0)
        else (true, hitp, d)).2.1 = p0
      ∧ (if C then ((false : Bool), p0, d0)
        else if d < 0 then (false, p0, d0)
        else if d > m then (false, p0, d0)
        else (true, hitp, d)).2.2 = d0 := by
  split_ifs <;> simp

/-- C9: whenever a ray query reports no intersection, the caller-supplied
out-locations for the intersection point and distance are returned
unmodified, for every shape variant. -/
theorem ray_miss_frame (ct : Point) (r : ℝ) (sz n : Point) (col : Color)
    (o dir : Point) (m : ℝ) (p0 : Point) (d0 : ℝ) :
    ((Sphere.getRayIntersection ⟨ct, r, col⟩ o dir m p0 d0).1 = false →
        (Sphere.getRayIntersection ⟨ct, r, col⟩ o dir m p0 d0).2.1 = p0
        ∧ (Sphere.getRayIntersection ⟨ct, r, col⟩ o dir m p0 d0).2.2 = d0)
    ∧ ((Plane.getRayIntersection ⟨ct, n, col⟩ o dir m p0 d0).1 = false →
        (Plane.getRayIntersection ⟨ct, n, col⟩ o dir m p0 d0).2.1 = p0
        ∧ (Plane.getRayIntersection ⟨ct, n, col⟩ o dir m p0 d0).2.2 = d0)
    ∧ ((Cube.getRayIntersection ⟨ct, sz, col⟩ o dir m p0 d0).1 = false →
        (Cube.getRayIntersection ⟨ct, sz, col⟩ o dir m p0 d0).2.1 = p0
        ∧ (Cube.getRayIntersection ⟨ct, sz, col⟩ o dir m p0 d0).2.2 = d0) := by
  have hs := ite_chain_frame
    ((dir.dot (o - ct)) ^ 2 - (o - ct).squaredNorm + r ^ 2 < 0)
    (-(dir.dot (o - ct))
      - Real.sqrt ((dir.dot (o - ct)) ^ 2 - (o - ct).squaredNorm + r ^ 2))
    m p0
    (o + (-(dir.dot (o - ct))
      - Real.sqrt ((dir.dot (o - ct)) ^ 2
        - (o - ct).squaredNorm + r ^ 2)) • dir) d0
  have hp := ite_chain_frame (|dir.dot n| < 1e-6)
    ((ct - o).dot n / dir.dot n) m p0
    (o + ((ct - o).dot n / dir.dot n) • dir) d0
  exact ⟨hs, hp, fun _ => ⟨rfl, rfl⟩⟩

/-- C9 witness: a parallel-ray miss on the plane leaves the out-locations
`(9,9,9)` and `7` untouched, by `ray_miss_frame`. -/
theorem ray_miss_frame_witness :
    (Plane.getRayIntersection ⟨⟨0, 0, 0⟩, ⟨0, 0, 1⟩, Color.White⟩ ⟨0, 0, 5⟩
      ⟨1, 0, 0⟩ 10 ⟨9, 9, 9⟩ 7).2.1 = (⟨9, 9, 9⟩ : Point)
    ∧ (Plane.getRayIntersection ⟨⟨0, 0, 0⟩, ⟨0, 0, 1⟩, Color.White⟩ ⟨0, 0, 5⟩
      ⟨1, 0, 0⟩ 10 ⟨9, 9, 9⟩ 7).2.2 = 7 :=
  (ray_miss_frame ⟨0, 0, 0⟩ 1 ⟨1, 1, 1⟩ ⟨0, 0, 1⟩ Color.White ⟨0, 0, 5⟩
    ⟨1, 0, 0⟩ 10 ⟨9, 9, 9⟩ 7).2.1
    (by norm_num [Plane.getRayIntersection, Point.dot])

/-- C10: the sphere ray query depends on the radius only through its
square, so spheres of radius `r` and `-r` give identical intersection
results for every ray, while their distance queries differ at every point
once `r` is nonzero. -/
theorem sphere_radius_sign_irrelevant (ct : Point) (r : ℝ) (col : Color)
    (o dir : Point) (m : ℝ) (p0 : Point) (d0 : ℝ) :
    Sphere.getRayIntersection ⟨ct, r, col⟩ o dir m p0 d0
      = Sphere.getRayIntersection ⟨ct, -r, col⟩ o dir m p0 d0
    ∧ ∀ p : Point, r ≠ 0 →
        Sphere.getDistanceToPoint ⟨ct, r, col⟩ p
          ≠ Sphere.getDistanceToPoint ⟨ct, -r, col⟩ p := by
  constructor
  · unfold Sphere.getRayIntersection
    simp only [neg_sq]
  · intro p hr h
    unfold Sphere.getDistanceToPoint at h
    dsimp only at h
    apply hr
    linarith

/-- C10 witness: the unit sphere and the radius `-1` sphere at the origin
disagree on the distance at the origin, by
`sphere_radius_sign_irrelevant`. -/
theorem sphere_radius_sign_irrelevant_witness :
    Sphere.getDistanceToPoint ⟨⟨0, 0, 0⟩, 1, Color.White⟩ ⟨0, 0, 0⟩
      ≠ Sphere.getDistanceToPoint ⟨⟨0, 0, 0⟩, -1, Color.White⟩ ⟨0, 0, 0⟩ :=
  (sphere_radius_sign_irrelevant ⟨0, 0, 0⟩ 1 Color.White ⟨0, 0, 0⟩ ⟨0, 0, 0⟩
    0 ⟨0, 0, 0⟩ 0).2 ⟨0, 0, 0⟩ (by norm_num)

end Voxblox
